import Mathlib

/-!
Verification of the solsnake body-following and length-economy simulation.

The definitions below are a shallow embedding of the JavaScript sources:
`src/snake.js` (the clean variant: the per-tick `update`, the boost /
consumption / decay length economy, trail recording and trail sampling)
and the fixed variant's pure segment-spacing function
`calculateSegmentDistance`. JavaScript numbers are modelled as real
numbers; the mutable `Snake` object is modelled as a state record with
each method a state-passing function.
-/

noncomputable section

namespace Solsnake

/-! ## Configuration constants (src/config.js) -/

def INITIAL_LENGTH : ℝ := 5
def SEGMENT_GAP : ℝ := 14
def TRAIL_SAMPLE_RATE : ℝ := 0.8
def BOOST_SPEED_MULTIPLIER : ℝ := 1.8
def LENGTH_COST_PER_SECOND : ℝ := 0.7
def MIN_LENGTH_TO_BOOST : ℝ := 5
def TURN_RATE : ℝ := 4.0
def maxTrailLength : ℕ := 1000

/-! ## Vector math primitives (src/utils.js) -/

structure Vec2 where
  x : ℝ
  y : ℝ

def Vec2.add (a b : Vec2) : Vec2 := ⟨a.x + b.x, a.y + b.y⟩

def Vec2.magnitude (v : Vec2) : ℝ := Real.sqrt (v.x * v.x + v.y * v.y)

def Vec2.distanceTo (a b : Vec2) : ℝ :=
  Real.sqrt ((a.x - b.x) * (a.x - b.x) + (a.y - b.y) * (a.y - b.y))

/-- `Math.atan2 y x`, modelled as the argument of the complex number `x + y i`. -/
def atan2 (y x : ℝ) : ℝ := Complex.arg ⟨x, y⟩

def Vec2.fromAngle (angle magnitude : ℝ) : Vec2 :=
  ⟨Real.cos angle * magnitude, Real.sin angle * magnitude⟩

/-- `MathUtils.angleDifference(a, b)` from src/utils.js. -/
def angleDifference (a b : ℝ) : ℝ :=
  atan2 (Real.sin (b - a)) (Real.cos (b - a))

/-! ## Data model -/

/-- One recorded trail sample: `{ position, arcLength }`. -/
structure TrailPoint where
  position : Vec2
  arcLength : ℝ

/-- One body segment: `{ position, distance, isHead }`. -/
structure Segment where
  position : Vec2
  distance : ℝ
  isHead : Bool

/-- The mutable `Snake` object of src/snake.js as a state record.
The wall-clock fields (`lastBoostTime`, `lastDecayTime`) and the purely
cosmetic fields (`color`, `score`) are never read by the simulation and
are omitted. -/
structure SnakeState where
  position : Vec2
  angle : ℝ
  length : ℝ
  value : ℝ
  isBoosting : Bool
  lengthBurned : ℝ
  decayAccumulator : ℝ
  trail : List TrailPoint
  segments : List Segment
  headRadius : ℝ
  bodyRadius : ℝ
  speed : ℝ
  isAlive : Bool

/-! ## Derived speed curve (src/snake.js `calculateSpeed`) -/

/-- `calculateSpeed`: 120 at/below length 5, 85 at/above length 2000,
linear interpolation in between. -/
def calculateSpeed (length : ℝ) : ℝ :=
  if length ≤ 5 then 120
  else if length ≥ 2000 then 85
  else 120 - (120 - 85) * ((length - 5) / (2000 - 5))

/-! ## Trail sampling (src/snake.js `getPositionAtDistance`) -/

/-- Linear interpolation between the bracketing samples:
`next.position + (current.position - next.position) * t`, componentwise. -/
def lerpPoint (next cur : TrailPoint) (t : ℝ) : Vec2 :=
  ⟨next.position.x + (cur.position.x - next.position.x) * t,
   next.position.y + (cur.position.y - next.position.y) * t⟩

/-- The bracket-search loop of `getPositionAtDistance`: scan consecutive
pairs (newest first) for the first pair whose arc lengths bracket
`actual`; interpolate there, guarding a zero-length bracket. -/
def findBracket (actual : ℝ) : List TrailPoint → Option Vec2
  | cur :: next :: rest =>
    if actual ≤ cur.arcLength ∧ next.arcLength ≤ actual then
      let segmentLength := cur.arcLength - next.arcLength
      if segmentLength = 0 then some cur.position
      else some (lerpPoint next cur ((actual - next.arcLength) / segmentLength))
    else findBracket actual (next :: rest)
  | _ => none

/-- `getPositionAtDistance(targetDistance)`. `trail` is newest-first;
`fallback` is `this.position` (returned when the trail is empty). -/
def getPositionAtDistance (trail : List TrailPoint) (fallback : Vec2)
    (targetDistance : ℝ) : Vec2 :=
  match trail with
  | [] => fallback
  | [p] => p.position
  | p :: q :: rest =>
    let headArcLength := p.arcLength
    let actual := headArcLength - targetDistance
    if actual ≥ headArcLength then p.position
    else
      let lastPoint := (q :: rest).getLast (List.cons_ne_nil q rest)
      if actual ≤ lastPoint.arcLength then lastPoint.position
      else
        match findBracket actual (p :: q :: rest) with
        | some v => v
        | none => lastPoint.position

/-! ## Segment spacing -/

/-- The per-step gap of the fixed variant's `calculateSegmentDistance`
(src/snake.js, fixed version): the base gap is scaled by a
length-regime factor, and steps in the tail region (`i > 0.7 * length`)
get a further 1.2 multiplier. -/
def segmentGapFixed (length : ℝ) (i : ℕ) : ℝ :=
  let base :=
    if length > 500 then SEGMENT_GAP * min 3.0 (1.0 + Real.logb 10 (length / 100))
    else if length > 100 then SEGMENT_GAP * (1.0 + (length - 100) / 400)
    else SEGMENT_GAP
  if (i : ℝ) > length * 0.7 then base * 1.2 else base

/-- `calculateSegmentDistance(segmentIndex)` of the fixed variant: the
cumulative target distance is the sum of the per-step gaps for
`i = 1 .. segmentIndex` (0 for the head). -/
def calculateSegmentDistance (segmentIndex : ℕ) (length : ℝ) : ℝ :=
  ∑ i in Finset.Icc 1 segmentIndex, segmentGapFixed length i

/-- The spacing factor of the clean variant's `updateSegmentsAlongTrail`
(diminishing-returns regimes over `lengthDiff = max 0 (length - 5)`). -/
def snakeSpacingFactor (length : ℝ) : ℝ :=
  let lengthDiff := max 0 (length - 5)
  if lengthDiff > 1000 then 3.0 + Real.log (lengthDiff / 1000) * 0.5
  else if lengthDiff > 100 then 1.0 + Real.log (lengthDiff / 100) * 2.0
  else Real.sqrt lengthDiff * 0.3

/-! ## Visual size and per-segment radius (src/snake.js) -/

/-- `updateVisualSize()`: radii scale linearly with `length`. -/
def updateVisualSize (s : SnakeState) : SnakeState :=
  let lengthMultiplier := 1 + (s.length - INITIAL_LENGTH) * 0.02
  { s with headRadius := 12 * lengthMultiplier, bodyRadius := 10 * lengthMultiplier }

/-- `getSegmentRadius(segmentIndex)`: head radius at index 0, otherwise a
tapered body radius floored at 0.7. -/
def getSegmentRadius (s : SnakeState) (segmentIndex : ℕ) : ℝ :=
  if segmentIndex = 0 then s.headRadius
  else s.bodyRadius * max 0.7 (1 - ((segmentIndex : ℝ) - 1) * 0.03)

/-! ## Length economy -/

/-- The `while (this.segments.length > n) this.segments.pop()` loop of
`consumeLength` (with `n = Math.floor(this.length)`, which is
non-negative at every call site). -/
def popWhileGt (segs : List Segment) (n : ℕ) : List Segment :=
  if segs.length > n then popWhileGt segs.dropLast n else segs
termination_by segs.length
decreasing_by
  simp only [List.length_dropLast]
  omega

/-- `consumeLength(amount)`: no-op for non-positive amounts; otherwise
floor the new length at `MIN_LENGTH_TO_BOOST`, add the actually consumed
amount to `lengthBurned`, pop segments down to `floor(length)`,
recompute speed and visual size. -/
def consumeLength (s : SnakeState) (amount : ℝ) : SnakeState :=
  if amount ≤ 0 then s
  else
    let newLength := max MIN_LENGTH_TO_BOOST (s.length - amount)
    let actualConsumed := s.length - newLength
    updateVisualSize
      { s with
        length := newLength,
        lengthBurned := s.lengthBurned + actualConsumed,
        segments := popWhileGt s.segments (Int.toNat ⌊newLength⌋),
        speed := calculateSpeed newLength }

/-- The transition branches of `updateBoostSystem`: start boosting when
wanted, allowed and not already on; stop when no longer wanted; stop
when wanted but no longer allowed. -/
def boostTransition (s : SnakeState) (wantsToBoost : Bool) : SnakeState :=
  let canBoost := s.length > MIN_LENGTH_TO_BOOST
  if wantsToBoost ∧ canBoost ∧ ¬s.isBoosting then { s with isBoosting := true }
  else if ¬wantsToBoost ∧ s.isBoosting then { s with isBoosting := false }
  else if wantsToBoost ∧ ¬canBoost then
    if s.isBoosting then { s with isBoosting := false } else s
  else s

/-- `updateBoostSystem(deltaTime, wantsToBoost)`: the boost sub-machine
transitions, then consumption while boosting with the auto-stop check. -/
def updateBoostSystem (s : SnakeState) (deltaTime : ℝ) (wantsToBoost : Bool) :
    SnakeState :=
  let s1 := boostTransition s wantsToBoost
  if s1.isBoosting then
    let s2 := consumeLength s1 (LENGTH_COST_PER_SECOND * deltaTime)
    if s2.length ≤ MIN_LENGTH_TO_BOOST then { s2 with isBoosting := false } else s2
  else s1

/-- The decay pop loop: `for (i < k) if (segments.length > length) pop()`.
Note the comparison is against the raw (real) `length`, not its floor. -/
def decayPop (len : ℝ) : List Segment → ℕ → List Segment
  | segs, 0 => segs
  | segs, k + 1 =>
    decayPop len (if (segs.length : ℝ) > len then segs.dropLast else segs) k

/-- The decay-rate bracket table of `updateLengthDecay`. -/
def decayRateOf (length : ℝ) : ℝ :=
  if length > 1000 then 0.5
  else if length > 500 then 0.3
  else if length > 200 then 0.15
  else if length > 100 then 0.08
  else if length > 50 then 0.03
  else 0

/-- `updateLengthDecay(deltaTime)`: passive decay for lengths above 50,
banked in `decayAccumulator` and applied once at least one second has
accumulated, floored at 50. -/
def updateLengthDecay (s : SnakeState) (deltaTime : ℝ) : SnakeState :=
  if s.length ≤ 50 then s
  else
    let acc := s.decayAccumulator + deltaTime
    let decayRate := decayRateOf s.length
    if acc ≥ 1.0 then
      let lengthToLose := decayRate * acc
      let s1 :=
        if lengthToLose > 0 then
          let newLength := max 50 (s.length - lengthToLose)
          updateVisualSize
            { s with
              length := newLength,
              segments := decayPop newLength s.segments (Int.toNat ⌊s.length - newLength⌋),
              speed := calculateSpeed newLength }
        else s
      { s1 with decayAccumulator := 0 }
    else { s with decayAccumulator := acc }

/-- One iteration of the `grow` loop: push one tail segment positioned
via the radius-scaled dynamic gap and the trail sampler. -/
def growStep (s : SnakeState) : SnakeState :=
  let segmentIndex := s.segments.length
  let segmentRadius := getSegmentRadius s segmentIndex
  let radiusMultiplier := segmentRadius / 10
  let dynamicGap := SEGMENT_GAP * (0.8 + radiusMultiplier * 0.2)
  let distance := (segmentIndex : ℝ) * dynamicGap
  let position := getPositionAtDistance s.trail s.position distance
  { s with segments := s.segments ++ [⟨position, distance, false⟩] }

/-- The `for (let i = 0; i < amount; i++)` loop of `grow`. -/
def growLoop (s : SnakeState) : ℕ → SnakeState
  | 0 => s
  | k + 1 => growLoop (growStep s) k

/-- `grow(amount)`: add `amount` to the length, append `⌈amount⌉⁺` tail
segments (the loop count of `for (i = 0; i < amount; i++)`), then
recompute visual size and speed. -/
def grow (s : SnakeState) (amount : ℝ) : SnakeState :=
  let s1 := { s with length := s.length + amount }
  let s2 := growLoop s1 (Int.toNat ⌈amount⌉)
  let s3 := updateVisualSize s2
  { s3 with speed := calculateSpeed s3.length }

/-! ## Trail recording and the per-tick update -/

/-- `addToTrail(newPosition)`: record a sample only if the head moved at
least `TRAIL_SAMPLE_RATE` since the last sample; then prune by arc-length
age and cap the sample count. (The trail is never empty in the source;
the `[]` case is unreachable.) -/
def addToTrail (s : SnakeState) (newPosition : Vec2) : SnakeState :=
  match s.trail with
  | [] => s
  | lastTrailPoint :: _ =>
    let distance := lastTrailPoint.position.distanceTo newPosition
    if distance ≥ TRAIL_SAMPLE_RATE then
      let newArcLength := lastTrailPoint.arcLength + distance
      let t1 : List TrailPoint := ⟨newPosition, newArcLength⟩ :: s.trail
      let maxTrailDistance := s.length * SEGMENT_GAP + 100
      let t2 := t1.filter fun point =>
        decide (newArcLength - point.arcLength ≤ maxTrailDistance)
      let t3 := if t2.length > maxTrailLength then t2.take maxTrailLength else t2
      { s with trail := t3 }
    else s

/-- `updateSegmentsAlongTrail()` of the clean variant: reposition the
`i`-th segment at distance `i * dynamicGap` along the trail, where
`dynamicGap` depends on the current length only. -/
def updateSegmentsAlongTrail (s : SnakeState) : SnakeState :=
  { s with
    segments := s.segments.mapIdx fun i seg =>
      let lengthMultiplier := 1.0 + snakeSpacingFactor s.length
      let dynamicGap := SEGMENT_GAP * lengthMultiplier
      let targetDistance := (i : ℝ) * dynamicGap
      { seg with
        position := getPositionAtDistance s.trail s.position targetDistance,
        distance := targetDistance } }

/-- `update(deltaTime, turnDirection, boost)`: the per-tick step — no-op
when dead, else boost system, decay, steering with the length-dependent
turn penalty, head advance, trail recording, and the body follower. -/
def update (s : SnakeState) (deltaTime : ℝ) (turnDirection : Vec2)
    (boost : Bool) : SnakeState :=
  if ¬s.isAlive then s
  else
    let s1 := updateBoostSystem s deltaTime boost
    let s2 := updateLengthDecay s1 deltaTime
    let currentSpeed :=
      if s2.isBoosting then s2.speed * BOOST_SPEED_MULTIPLIER else s2.speed
    let s3 :=
      if turnDirection.magnitude > 0.1 then
        let targetAngle := atan2 turnDirection.y turnDirection.x
        let angleDiff := angleDifference s2.angle targetAngle
        let lengthDiff := max 0 (s2.length - 5)
        let turnPenaltyFactor :=
          if lengthDiff > 1000 then 0.8 + Real.log (lengthDiff / 1000) * 0.05
          else if lengthDiff > 100 then 0.4 + Real.log (lengthDiff / 100) * 0.2
          else lengthDiff * 0.004
        let turnMultiplier := max 0.1 (1 - turnPenaltyFactor)
        let effectiveTurnRate := TURN_RATE * turnMultiplier * deltaTime
        if |angleDiff| ≤ effectiveTurnRate then { s2 with angle := targetAngle }
        else { s2 with angle := s2.angle + Real.sign angleDiff * effectiveTurnRate }
      else s2
    let velocity := Vec2.fromAngle s3.angle (currentSpeed * deltaTime)
    let newHeadPosition := s3.position.add velocity
    let s4 := addToTrail s3 newHeadPosition
    let s5 := { s4 with position := newHeadPosition }
    updateSegmentsAlongTrail s5

/-- The constructor together with `initializeTrailAndSegments()`: a single
trail sample at the start position, `⌈INITIAL_LENGTH⌉` straight-line
segments, and the derived speed. -/
def initialSnake (startX startY startAngle : ℝ) : SnakeState :=
  let position : Vec2 := ⟨startX, startY⟩
  let trail : List TrailPoint := [⟨⟨startX, startY⟩, 0⟩]
  let segments : List Segment :=
    (List.range (Int.toNat ⌈INITIAL_LENGTH⌉)).map fun (i : ℕ) =>
      let distance := (i : ℝ) * SEGMENT_GAP
      ⟨getPositionAtDistance trail position distance, distance, decide (i = 0)⟩
  { position := position
    angle := startAngle
    length := INITIAL_LENGTH
    value := 0
    isBoosting := false
    lengthBurned := 0
    decayAccumulator := 0
    trail := trail
    segments := segments
    headRadius := 12
    bodyRadius := 10
    speed := calculateSpeed INITIAL_LENGTH
    isAlive := true }

/-! ## Concrete states and trails used as test inputs -/

/-- A freshly constructed snake that has been killed by the external
boundary check (`die()` sets `isAlive` to `false`). -/
def deadSnake : SnakeState := { initialSnake 0 0 0 with isAlive := false }

/-- A placeholder body segment. -/
def dummySegment : Segment := ⟨⟨0, 0⟩, 0, false⟩

/-- A snake of length 60.02 with 60 segments (the count equals
`⌊length⌋`) and 0.9 banked decay seconds: reachable by growing to 61 and
boost-consuming 0.98, then idling 0.9 seconds. -/
def decaySnake : SnakeState :=
  { initialSnake 0 0 0 with
    length := 60.02
    segments := List.replicate 60 dummySegment
    decayAccumulator := 0.9 }

/-- A snake of length 60 used to exercise the decay floor. -/
def longSnake : SnakeState := { initialSnake 0 0 0 with length := 60 }

/-- A two-sample trail with strictly decreasing arc lengths. -/
def shortTrail : List TrailPoint := [⟨⟨0, 0⟩, 10⟩, ⟨⟨1, 1⟩, 2⟩]

/-- A trail containing the zero-length bracket (arc length 5 twice). -/
def zeroBracketTrail : List TrailPoint :=
  [⟨⟨0, 0⟩, 10⟩, ⟨⟨1, 0⟩, 5⟩, ⟨⟨2, 0⟩, 5⟩, ⟨⟨3, 0⟩, 0⟩]

/-- The state after one `update` tick of a fresh snake with a 1 ms frame:
the head advances by `120 * 0.001 = 0.12` units, which is below the
trail sample threshold of 0.8. -/
def tinyStepSnake : SnakeState := update (initialSnake 0 0 0) 0.001 ⟨0, 0⟩ false

/-- The segment-count invariant of the spec: the number of segments
equals `⌊length⌋`. -/
def segCountInv (s : SnakeState) : Prop :=
  s.segments.length = Int.toNat ⌊s.length⌋

/-- The trail buffer's documented ordering invariant: arc lengths are
strictly decreasing from the newest sample to the oldest. -/
def TrailSorted (trail : List TrailPoint) : Prop :=
  trail.Chain' fun a b => b.arcLength < a.arcLength

/-! ## Helper lemmas -/

lemma consumeLength_of_nonpos (s : SnakeState) {amount : ℝ} (h : amount ≤ 0) :
    consumeLength s amount = s := by
  simp [consumeLength, h]

lemma consumeLength_length_ge (s : SnakeState) {amount : ℝ} (h : 0 < amount) :
    MIN_LENGTH_TO_BOOST ≤ (consumeLength s amount).length := by
  simp only [consumeLength, not_le.mpr h, if_false, updateVisualSize]
  exact le_max_left _ _

lemma updateLengthDecay_of_le (s : SnakeState) (dt : ℝ) (h : s.length ≤ 50) :
    updateLengthDecay s dt = s := by
  simp [updateLengthDecay, h]

lemma updateLengthDecay_length_ge (s : SnakeState) (dt : ℝ) (h : 50 < s.length) :
    50 ≤ (updateLengthDecay s dt).length := by
  rw [updateLengthDecay]
  simp only [not_le.mpr h, if_false]
  split_ifs <;>
    first
      | exact h.le
      | (dsimp only [updateVisualSize]; exact le_max_left _ _)

lemma initialSnake_length : (initialSnake 0 0 0).length = 5 := rfl

lemma initialSnake_isBoosting : (initialSnake 0 0 0).isBoosting = false := rfl

lemma boostTransition_init :
    boostTransition (initialSnake 0 0 0) true = initialSnake 0 0 0 := by
  rw [boostTransition]
  norm_num [initialSnake_length, initialSnake_isBoosting, MIN_LENGTH_TO_BOOST]

lemma updateBoostSystem_init :
    updateBoostSystem (initialSnake 0 0 0) 1 true = initialSnake 0 0 0 := by
  rw [updateBoostSystem]
  simp [boostTransition_init, initialSnake_isBoosting]

lemma boostSystem_at_floor_eval :
    (updateBoostSystem (initialSnake 0 0 0) 1 true).length ≤ MIN_LENGTH_TO_BOOST := by
  rw [updateBoostSystem_init, initialSnake_length, MIN_LENGTH_TO_BOOST]

lemma segmentGapFixed_pos (length : ℝ) (i : ℕ) : 0 < segmentGapFixed length i := by
  simp only [segmentGapFixed]
  have hbase : 0 <
      (if length > 500 then SEGMENT_GAP * min 3.0 (1.0 + Real.logb 10 (length / 100))
       else if length > 100 then SEGMENT_GAP * (1.0 + (length - 100) / 400)
       else SEGMENT_GAP) := by
    split_ifs with h1 h2
    · refine mul_pos (by norm_num [SEGMENT_GAP]) (lt_min (by norm_num) ?_)
      have hlog : 0 ≤ Real.logb 10 (length / 100) :=
        Real.logb_nonneg (by norm_num) ((one_le_div (by norm_num)).mpr (by linarith))
      linarith
    · refine mul_pos (by norm_num [SEGMENT_GAP]) (by nlinarith)
    · norm_num [SEGMENT_GAP]
  by_cases ht : (i : ℝ) > length * 0.7
  · rw [if_pos ht]
    exact mul_pos hbase (by norm_num)
  · rw [if_neg ht]
    exact hbase

lemma initialSnake_isAlive : (initialSnake 0 0 0).isAlive = true := rfl

lemma initialSnake_angle : (initialSnake 0 0 0).angle = 0 := rfl

lemma initialSnake_position : (initialSnake 0 0 0).position = ⟨0, 0⟩ := rfl

lemma initialSnake_trail : (initialSnake 0 0 0).trail = [⟨⟨0, 0⟩, 0⟩] := rfl

lemma initialSnake_speed : (initialSnake 0 0 0).speed = 120 := by
  show calculateSpeed INITIAL_LENGTH = 120
  norm_num [calculateSpeed, INITIAL_LENGTH]

lemma zeroVec_magnitude : Vec2.magnitude ⟨0, 0⟩ = 0 := by
  have h : ((⟨0, 0⟩ : Vec2).x * (⟨0, 0⟩ : Vec2).x + (⟨0, 0⟩ : Vec2).y * (⟨0, 0⟩ : Vec2).y)
      = 0 := by norm_num
  rw [Vec2.magnitude, h, Real.sqrt_zero]

lemma boostTransition_idle (s : SnakeState) (h : s.isBoosting = false) :
    boostTransition s false = s := by
  simp [boostTransition, h]

lemma updateBoostSystem_idle (s : SnakeState) (dt : ℝ) (h : s.isBoosting = false) :
    updateBoostSystem s dt false = s := by
  rw [updateBoostSystem]
  simp [boostTransition_idle s h, h]

lemma updateSegmentsAlongTrail_trail (s : SnakeState) :
    (updateSegmentsAlongTrail s).trail = s.trail := rfl

lemma updateSegmentsAlongTrail_position (s : SnakeState) :
    (updateSegmentsAlongTrail s).position = s.position := rfl

lemma addToTrail_small (s : SnakeState) (newPos : Vec2) (last : TrailPoint)
    (rest : List TrailPoint) (htrail : s.trail = last :: rest)
    (hsmall : last.position.distanceTo newPos < TRAIL_SAMPLE_RATE) :
    addToTrail s newPos = s := by
  rw [addToTrail, htrail]
  dsimp only
  rw [if_neg (not_le.mpr hsmall)]

/-- One tick of a live, idle snake with no steering input and a head
advance below the trail sample threshold only moves the head and
repositions the segments. -/
lemma update_small_move (s : SnakeState) (dt : ℝ) (td : Vec2)
    (halive : s.isAlive = true) (hisb : s.isBoosting = false)
    (hboost : updateBoostSystem s dt false = s)
    (hdecay : updateLengthDecay s dt = s)
    (hmag : ¬(td.magnitude > 0.1))
    (last : TrailPoint) (rest : List TrailPoint) (htrail : s.trail = last :: rest)
    (hsmall : last.position.distanceTo
        (s.position.add (Vec2.fromAngle s.angle (s.speed * dt))) < TRAIL_SAMPLE_RATE) :
    update s dt td false = updateSegmentsAlongTrail
      { s with position := s.position.add (Vec2.fromAngle s.angle (s.speed * dt)) } := by
  simp only [update, halive, Bool.not_true, if_false, hboost, hdecay, hisb,
    Bool.false_eq_true, if_neg hmag]
  rw [addToTrail_small s _ last rest htrail hsmall]
  simp [halive, hisb]

lemma updateLengthDecay_init (dt : ℝ) :
    updateLengthDecay (initialSnake 0 0 0) dt = initialSnake 0 0 0 :=
  updateLengthDecay_of_le _ _ (by rw [initialSnake_length]; norm_num)

lemma newHead_init_eval :
    Vec2.add (initialSnake 0 0 0).position
      (Vec2.fromAngle (initialSnake 0 0 0).angle ((initialSnake 0 0 0).speed * 0.001)) =
      ⟨0.12, 0⟩ := by
  rw [initialSnake_position, initialSnake_angle, initialSnake_speed, Vec2.fromAngle,
    Real.cos_zero, Real.sin_zero, Vec2.add]
  norm_num

lemma dist_origin_head : Vec2.distanceTo ⟨0, 0⟩ ⟨0.12, 0⟩ = 0.12 := by
  have h : ((⟨0, 0⟩ : Vec2).x - (⟨0.12, 0⟩ : Vec2).x) *
        ((⟨0, 0⟩ : Vec2).x - (⟨0.12, 0⟩ : Vec2).x) +
      ((⟨0, 0⟩ : Vec2).y - (⟨0.12, 0⟩ : Vec2).y) *
        ((⟨0, 0⟩ : Vec2).y - (⟨0.12, 0⟩ : Vec2).y) = 0.12 ^ 2 := by norm_num
  rw [Vec2.distanceTo, h, Real.sqrt_sq (by norm_num : (0:ℝ) ≤ 0.12)]

lemma tinyStepSnake_eq :
    tinyStepSnake = updateSegmentsAlongTrail
      { initialSnake 0 0 0 with
        position := Vec2.add (initialSnake 0 0 0).position
          (Vec2.fromAngle (initialSnake 0 0 0).angle
            ((initialSnake 0 0 0).speed * 0.001)) } := by
  rw [tinyStepSnake]
  refine update_small_move _ _ _ initialSnake_isAlive initialSnake_isBoosting
    (updateBoostSystem_idle _ _ initialSnake_isBoosting) (updateLengthDecay_init _)
    (by rw [zeroVec_magnitude]; norm_num) ⟨⟨0, 0⟩, 0⟩ [] initialSnake_trail ?_
  rw [newHead_init_eval]
  show Vec2.distanceTo ⟨0, 0⟩ ⟨0.12, 0⟩ < TRAIL_SAMPLE_RATE
  rw [dist_origin_head, TRAIL_SAMPLE_RATE]
  norm_num

lemma tinyStepSnake_trail : tinyStepSnake.trail = [⟨⟨0, 0⟩, 0⟩] := by
  rw [tinyStepSnake_eq, updateSegmentsAlongTrail_trail]
  rfl

lemma tinyStepSnake_position : tinyStepSnake.position = ⟨0.12, 0⟩ := by
  rw [tinyStepSnake_eq, updateSegmentsAlongTrail_position]
  exact newHead_init_eval

lemma popWhileGt_eq_take : ∀ (segs : List Segment) (n : ℕ),
    popWhileGt segs n = segs.take n
  | segs, n => by
    rw [popWhileGt]
    split_ifs with h
    · rw [popWhileGt_eq_take segs.dropLast n, List.dropLast_eq_take, List.take_take]
      congr 1
      omega
    · rw [List.take_of_length_le (by omega)]
termination_by segs _ => segs.length
decreasing_by
  simp only [List.length_dropLast]
  omega

lemma growStep_length (s : SnakeState) : (growStep s).length = s.length := rfl

lemma growStep_segments_length (s : SnakeState) :
    (growStep s).segments.length = s.segments.length + 1 := by
  simp [growStep]

lemma growLoop_length : ∀ (k : ℕ) (s : SnakeState), (growLoop s k).length = s.length
  | 0, s => rfl
  | k + 1, s => by rw [growLoop, growLoop_length k, growStep_length]

lemma growLoop_segments_length : ∀ (k : ℕ) (s : SnakeState),
    (growLoop s k).segments.length = s.segments.length + k
  | 0, s => rfl
  | k + 1, s => by
    rw [growLoop, growLoop_segments_length k, growStep_segments_length]
    omega

lemma decayPop_count_ge (len : ℝ) :
    ∀ (k : ℕ) (segs : List Segment), Int.toNat ⌊len⌋ ≤ segs.length →
      Int.toNat ⌊len⌋ ≤ (decayPop len segs k).length
  | 0, segs, h => h
  | k + 1, segs, h => by
    rw [decayPop]
    refine decayPop_count_ge len k _ ?_
    split_ifs with hc
    · have h1 : (⌊len⌋ : ℝ) ≤ len := Int.floor_le len
      have h2 : ⌊len⌋ < (segs.length : ℤ) := by exact_mod_cast lt_of_le_of_lt h1 hc
      simp only [List.length_dropLast]
      omega
    · exact h

lemma initialSnake_segments_length : (initialSnake 0 0 0).segments.length = 5 := by
  simp only [initialSnake]
  rw [List.length_map, List.length_range]
  norm_num [INITIAL_LENGTH]
  decide

lemma initialSnake_segCountInv : segCountInv (initialSnake 0 0 0) := by
  unfold segCountInv
  rw [initialSnake_segments_length, initialSnake_length]
  norm_num
  decide

lemma decaySnake_length_eval : (updateLengthDecay decaySnake 0.1).length = 59.99 := by
  simp only [updateLengthDecay, show decaySnake.length = (60.02 : ℝ) from rfl,
    show decaySnake.decayAccumulator = (0.9 : ℝ) from rfl, updateVisualSize]
  norm_num [max_def, decayRateOf]

lemma decaySnake_segments_eval :
    (updateLengthDecay decaySnake 0.1).segments.length = 60 := by
  simp only [updateLengthDecay, show decaySnake.length = (60.02 : ℝ) from rfl,
    show decaySnake.decayAccumulator = (0.9 : ℝ) from rfl,
    show decaySnake.segments = List.replicate 60 dummySegment from rfl, updateVisualSize]
  norm_num [max_def, decayRateOf, decayPop, List.length_replicate]

lemma sorted_getLast_lt (p q : TrailPoint) (rest : List TrailPoint)
    (h : TrailSorted (p :: q :: rest)) :
    ((q :: rest).getLast (List.cons_ne_nil q rest)).arcLength < p.arcLength := by
  haveI : IsTrans TrailPoint (fun a b => b.arcLength < a.arcLength) :=
    ⟨fun _ _ _ hab hbc => lt_trans hbc hab⟩
  rw [TrailSorted, List.chain'_iff_pairwise] at h
  exact (List.pairwise_cons.mp h).1 _ (List.getLast_mem _)

/-! ## Claim theorems -/

/-- C1 (amended): the segment spacing policy `calculateSegmentDistance`
is strictly increasing in the segment index for every fixed length
(every per-step gap is positive). Monotonicity in the length, the other
half of the original claim, fails (see the counterexample). -/
theorem calculateSegmentDistance_strictMono_index (length : ℝ) {i j : ℕ}
    (hij : i < j) :
    calculateSegmentDistance i length < calculateSegmentDistance j length := by
  rw [calculateSegmentDistance, calculateSegmentDistance]
  refine Finset.sum_lt_sum_of_subset (Finset.Icc_subset_Icc_right hij.le)
    (i := j) (Finset.mem_Icc.mpr ⟨by omega, le_refl j⟩)
    (by simp only [Finset.mem_Icc]; omega)
    (segmentGapFixed_pos length j) fun k _ _ => (segmentGapFixed_pos length k).le

/-- Witness for C1 at concrete indices. -/
theorem calculateSegmentDistance_strictMono_index_witness :
    calculateSegmentDistance 1 20 < calculateSegmentDistance 2 20 :=
  calculateSegmentDistance_strictMono_index 20 (by norm_num)

/-- C1 counterexample: for the fixed index 4, increasing the length from
5 to 6 strictly decreases the target distance (the index leaves the
`i > 0.7 * length` tail region), so `calculateSegmentDistance` is not
non-decreasing in the length. -/
theorem calculateSegmentDistance_not_mono_length :
    calculateSegmentDistance 4 6 < calculateSegmentDistance 4 5 := by
  have expand : ∀ L : ℝ, calculateSegmentDistance 4 L =
      segmentGapFixed L 1 + segmentGapFixed L 2 + segmentGapFixed L 3 +
        segmentGapFixed L 4 := by
    intro L
    rw [calculateSegmentDistance,
      show (4 : ℕ) = 3 + 1 from rfl, Finset.sum_Icc_succ_top (by norm_num),
      show (3 : ℕ) = 2 + 1 from rfl, Finset.sum_Icc_succ_top (by norm_num),
      show (2 : ℕ) = 1 + 1 from rfl, Finset.sum_Icc_succ_top (by norm_num),
      Finset.Icc_self, Finset.sum_singleton]
  rw [expand, expand]
  norm_num [segmentGapFixed, SEGMENT_GAP]

/-- C2 (amended): sampling the trail at distance 0 returns the most
recent trail sample's position for every non-empty trail. (This equals
the head position only when the last head advance was actually recorded
into the trail; see the counterexample.) -/
theorem getPositionAtDistance_zero (trail : List TrailPoint) (fallback : Vec2)
    (h : trail ≠ []) :
    getPositionAtDistance trail fallback 0 = (trail.head h).position := by
  cases trail with
  | nil => exact absurd rfl h
  | cons p t =>
    cases t with
    | nil => rfl
    | cons q rest => simp [getPositionAtDistance]

/-- Witness for C2 on a concrete trail. -/
theorem getPositionAtDistance_zero_witness :
    getPositionAtDistance shortTrail ⟨5, 5⟩ 0 = ⟨0, 0⟩ :=
  getPositionAtDistance_zero shortTrail ⟨5, 5⟩ (by simp [shortTrail])

/-- C2 counterexample: after a 1 ms tick of a fresh snake the head moves
0.12 units — below the 0.8 sample threshold, so no trail sample is
recorded — and sampling at distance 0 returns the stale sample `(0,0)`,
not the snake's current head position `(0.12, 0)`. -/
theorem getPositionAtDistance_zero_misses_head :
    getPositionAtDistance tinyStepSnake.trail tinyStepSnake.position 0 ≠
      tinyStepSnake.position := by
  rw [tinyStepSnake_trail, tinyStepSnake_position]
  intro h
  rw [show getPositionAtDistance [⟨⟨0, 0⟩, 0⟩] ⟨0.12, 0⟩ 0 = ⟨0, 0⟩ from rfl] at h
  have hx := congrArg Vec2.x h
  norm_num at hx

/-- C3 (amended): `grow` with a natural amount and `consumeLength`
re-establish `segments.length = ⌊length⌋` whenever the invariant held
before the call (with `length ≥ 5` for consumption, `length ≥ 0` for
growth). A decay application does NOT maintain the equality — it can
leave the count strictly above `⌊length⌋` (see the counterexample) —
but it never removes segments below `⌊length⌋`. -/
theorem segment_count_tracks_floor :
    (∀ (s : SnakeState) (amount : ℝ), 5 ≤ s.length → segCountInv s →
      segCountInv (consumeLength s amount)) ∧
    (∀ (s : SnakeState) (n : ℕ), 0 ≤ s.length → segCountInv s →
      segCountInv (grow s n)) ∧
    (∀ (s : SnakeState) (dt : ℝ), Int.toNat ⌊s.length⌋ ≤ s.segments.length →
      Int.toNat ⌊(updateLengthDecay s dt).length⌋ ≤
        (updateLengthDecay s dt).segments.length) := by
  refine ⟨?_, ?_, ?_⟩
  · intro s amount hlen hinv
    unfold segCountInv at *
    simp only [consumeLength, updateVisualSize]
    split_ifs with h
    · exact hinv
    · dsimp only
      rw [popWhileGt_eq_take, List.length_take]
      have hle : max MIN_LENGTH_TO_BOOST (s.length - amount) ≤ s.length := by
        rw [MIN_LENGTH_TO_BOOST]
        exact max_le hlen (by linarith)
      have hfl : ⌊max MIN_LENGTH_TO_BOOST (s.length - amount)⌋ ≤ ⌊s.length⌋ :=
        Int.floor_le_floor hle
      rw [hinv]
      omega
  · intro s n h0 hinv
    unfold segCountInv at *
    simp only [grow, updateVisualSize]
    rw [growLoop_segments_length, growLoop_length]
    have hceil : Int.toNat ⌈(n : ℝ)⌉ = n := by
      rw [Int.ceil_natCast]
      exact Int.toNat_natCast n
    have hfl : ⌊s.length + (n : ℝ)⌋ = ⌊s.length⌋ + n := Int.floor_add_nat s.length n
    have hnn : 0 ≤ ⌊s.length⌋ := Int.floor_nonneg.mpr h0
    rw [hceil, hfl, hinv]
    omega
  · intro s dt h
    simp only [updateLengthDecay, updateVisualSize]
    split_ifs with h1 h2 h3
    · exact h
    · dsimp only
      refine decayPop_count_ge _ _ _ ?_
      have hle : max (50 : ℝ)
          (s.length - decayRateOf s.length * (s.decayAccumulator + dt)) ≤ s.length :=
        max_le (by linarith) (by linarith [h3.le])
      have hfl := Int.floor_le_floor hle
      omega
    · exact h
    · exact h

/-- Witness for C3: consuming one unit of length on a fresh snake keeps
the segment count equal to the length floor. -/
theorem segment_count_tracks_floor_witness :
    segCountInv (consumeLength (initialSnake 0 0 0) 1) :=
  segment_count_tracks_floor.1 _ 1 (by rw [initialSnake_length])
    initialSnake_segCountInv

/-- C3 counterexample: on a snake of length 60.02 with 60 segments and
0.9 banked decay seconds, a 0.1 s decay tick removes 0.03 length
(crossing the integer boundary to 59.99) but removes no segment —
`⌊oldLength − newLength⌋ = 0` — leaving 60 segments against
`⌊length⌋ = 59`. -/
theorem decay_breaks_segment_floor : ¬ segCountInv (updateLengthDecay decaySnake 0.1) := by
  unfold segCountInv
  rw [decaySnake_length_eval, decaySnake_segments_eval]
  norm_num
  decide

/-- C4: on `[5, 2000]` the derived speed curve `calculateSpeed` is
non-increasing; `calculateSpeed 5 = 120`, `calculateSpeed 2000 = 85`,
and `calculateSpeed L = 85` for every `L ≥ 2000`. -/
theorem calculateSpeed_monotone_curve :
    (∀ a b : ℝ, 5 ≤ a → a ≤ b → b ≤ 2000 → calculateSpeed b ≤ calculateSpeed a) ∧
    calculateSpeed 5 = 120 ∧ calculateSpeed 2000 = 85 ∧
    (∀ L : ℝ, 2000 ≤ L → calculateSpeed L = 85) := by
  refine ⟨?_, ?_, ?_, ?_⟩
  · intro a b ha hab hb
    unfold calculateSpeed
    split_ifs <;> linarith
  · norm_num [calculateSpeed]
  · norm_num [calculateSpeed]
  · intro L hL
    unfold calculateSpeed
    split_ifs <;> linarith

/-- Witness for C4 at concrete lengths. -/
theorem calculateSpeed_monotone_curve_witness :
    calculateSpeed 2000 ≤ calculateSpeed 1000 ∧ calculateSpeed 2500 = 85 :=
  ⟨calculateSpeed_monotone_curve.1 1000 2000 (by norm_num) (by norm_num) (by norm_num),
   calculateSpeed_monotone_curve.2.2.2 2500 (by norm_num)⟩

/-- C5: `consumeLength` is a no-op for non-positive amounts and otherwise
never leaves `length` below `MIN_LENGTH_TO_BOOST`; a decay tick is a
complete no-op at `length ≤ 50` and never reduces `length` below 50. -/
theorem consumption_and_decay_floors :
    (∀ (s : SnakeState) (amount : ℝ), amount ≤ 0 → consumeLength s amount = s) ∧
    (∀ (s : SnakeState) (amount : ℝ), 0 < amount →
      MIN_LENGTH_TO_BOOST ≤ (consumeLength s amount).length) ∧
    (∀ (s : SnakeState) (dt : ℝ), s.length ≤ 50 → updateLengthDecay s dt = s) ∧
    (∀ (s : SnakeState) (dt : ℝ), 50 < s.length →
      50 ≤ (updateLengthDecay s dt).length) :=
  ⟨fun s _ h => consumeLength_of_nonpos s h,
   fun s _ h => consumeLength_length_ge s h,
   fun s dt h => updateLengthDecay_of_le s dt h,
   fun s dt h => updateLengthDecay_length_ge s dt h⟩

/-- Witness for C5 on concrete states. -/
theorem consumption_and_decay_floors_witness :
    consumeLength (initialSnake 0 0 0) (-1) = initialSnake 0 0 0 ∧
    MIN_LENGTH_TO_BOOST ≤ (consumeLength (initialSnake 0 0 0) 1).length ∧
    updateLengthDecay (initialSnake 0 0 0) 2 = initialSnake 0 0 0 ∧
    50 ≤ (updateLengthDecay longSnake 2).length :=
  ⟨consumption_and_decay_floors.1 _ _ (by norm_num),
   consumption_and_decay_floors.2.1 _ _ (by norm_num),
   consumption_and_decay_floors.2.2.1 _ _ (by rw [initialSnake_length]; norm_num),
   consumption_and_decay_floors.2.2.2 _ _ (by norm_num [longSnake])⟩

/-- C6: after a boost-system step the snake is never left boosting with
its length at or below the boost floor, whatever the external
wants-boost signal. -/
theorem updateBoostSystem_stops_at_floor (s : SnakeState) (dt : ℝ) (wants : Bool)
    (h : (updateBoostSystem s dt wants).length ≤ MIN_LENGTH_TO_BOOST) :
    (updateBoostSystem s dt wants).isBoosting = false := by
  simp only [updateBoostSystem] at h ⊢
  by_cases hb : (boostTransition s wants).isBoosting
  · simp only [hb, if_true] at h ⊢
    by_cases h2 : (consumeLength (boostTransition s wants)
        (LENGTH_COST_PER_SECOND * dt)).length ≤ MIN_LENGTH_TO_BOOST
    · simp only [h2, if_true]
    · simp only [h2, if_false] at h
  · simp only [hb, if_false] at h ⊢
    simp only [Bool.not_eq_true] at hb
    exact hb

/-- Witness for C6: at the boost floor with the wants-boost signal held
true, the step leaves boosting off. -/
theorem updateBoostSystem_stops_at_floor_witness :
    (updateBoostSystem (initialSnake 0 0 0) 1 true).length ≤ MIN_LENGTH_TO_BOOST ∧
    (updateBoostSystem (initialSnake 0 0 0) 1 true).isBoosting = false :=
  ⟨boostSystem_at_floor_eval, updateBoostSystem_stops_at_floor _ _ _ boostSystem_at_floor_eval⟩

/-- C9: once `isAlive` is false, `update` is a complete no-op: the whole
state (trail, segments, economy fields, position, angle) is unchanged. -/
theorem update_noop_of_dead (s : SnakeState) (deltaTime : ℝ)
    (turnDirection : Vec2) (boost : Bool) (h : s.isAlive = false) :
    update s deltaTime turnDirection boost = s := by
  rw [update]
  simp [h]

/-- Witness for C9 on a concrete dead snake. -/
theorem update_noop_of_dead_witness :
    deadSnake.isAlive = false ∧ update deadSnake 1 ⟨1, 0⟩ true = deadSnake :=
  ⟨rfl, update_noop_of_dead _ _ _ _ rfl⟩

/-- C10: `consumeLength` preserves the sum `length + lengthBurned`: the
amount credited to `lengthBurned` is exactly the actual decrease of
`length`. -/
theorem consumeLength_preserves_length_plus_burned (s : SnakeState) (amount : ℝ) :
    (consumeLength s amount).length + (consumeLength s amount).lengthBurned =
      s.length + s.lengthBurned := by
  rw [consumeLength]
  split_ifs with h
  · rfl
  · dsimp only [updateVisualSize]
    ring

/-- C7: on a well-formed (strictly decreasing) non-empty trail, a sample
request whose absolute arc length is at or below the oldest retained
sample's arc length returns that oldest sample's position — the back
clamp, with no extrapolation. (The sampler is a total function, so it is
defined for every requested distance.) -/
theorem sample_clamps_to_oldest (trail : List TrailPoint) (fallback : Vec2)
    (d : ℝ) (h : trail ≠ []) (hsorted : TrailSorted trail)
    (hcond : (trail.head h).arcLength - d ≤ (trail.getLast h).arcLength) :
    getPositionAtDistance trail fallback d = (trail.getLast h).position := by
  cases trail with
  | nil => exact absurd rfl h
  | cons p t =>
    cases t with
    | nil => rfl
    | cons q rest =>
      have hlast := sorted_getLast_lt p q rest hsorted
      have hgl : (p :: q :: rest).getLast h =
          (q :: rest).getLast (List.cons_ne_nil q rest) := List.getLast_cons _
      rw [hgl] at hcond ⊢
      rw [List.head_cons] at hcond
      simp only [getPositionAtDistance]
      rw [if_neg (show ¬(p.arcLength - d ≥ p.arcLength) from not_le.mpr (by linarith)),
        if_pos hcond]

/-- Witness for C7 on a concrete trail: sampling 9 units behind a head
at arc length 10 lands past the oldest sample (arc length 2) and clamps
to its position. -/
theorem sample_clamps_to_oldest_witness :
    getPositionAtDistance shortTrail ⟨7, 7⟩ 9 = ⟨1, 1⟩ :=
  sample_clamps_to_oldest shortTrail ⟨7, 7⟩ 9 (by simp [shortTrail])
    (by norm_num [TrailSorted, shortTrail])
    (by norm_num [shortTrail, List.getLast])

/-- C8 (amended): when the bracket scan's first matching pair has
identical arc lengths — a "zero-length bracket" — `getPositionAtDistance`
returns the NEWER sample's position of that pair (the code's
`currentPoint`), not the older one as the claim states, and never
divides by zero. -/
theorem zero_length_bracket_returns_newer (x b c : TrailPoint)
    (rest : List TrailPoint) (fb : Vec2)
    (heq : b.arcLength = c.arcLength) (hlt : b.arcLength < x.arcLength)
    (hlast : ((c :: rest).getLast (List.cons_ne_nil c rest)).arcLength < b.arcLength) :
    getPositionAtDistance (x :: b :: c :: rest) fb (x.arcLength - b.arcLength) =
      b.position := by
  simp only [getPositionAtDistance]
  have hactual : x.arcLength - (x.arcLength - b.arcLength) = b.arcLength := by ring
  rw [hactual]
  have hgl : (b :: c :: rest).getLast (List.cons_ne_nil b (c :: rest)) =
      (c :: rest).getLast (List.cons_ne_nil c rest) := List.getLast_cons _
  rw [hgl]
  rw [if_neg (not_le.mpr hlt), if_neg (not_le.mpr hlast)]
  simp only [findBracket]
  rw [if_pos ⟨hlt.le, le_refl b.arcLength⟩,
    if_neg (sub_ne_zero.mpr (ne_of_gt hlt))]
  simp [lerpPoint]

/-- Witness for C8 on the concrete zero-bracket trail. -/
theorem zero_length_bracket_returns_newer_witness :
    getPositionAtDistance zeroBracketTrail ⟨9, 9⟩ (10 - 5) = ⟨1, 0⟩ :=
  zero_length_bracket_returns_newer ⟨⟨0, 0⟩, 10⟩ ⟨⟨1, 0⟩, 5⟩ ⟨⟨2, 0⟩, 5⟩
    [⟨⟨3, 0⟩, 0⟩] ⟨9, 9⟩ rfl (by norm_num) (by norm_num [List.getLast])

/-- C8 counterexample: on the trail with the zero-length pair at arc
length 5 (newer sample at `(1,0)`, older at `(2,0)`), sampling at the
bracketed distance returns the newer sample's position `(1,0)`, not the
older sample's position `(2,0)` as the claim states. -/
theorem zero_length_bracket_not_older :
    getPositionAtDistance zeroBracketTrail ⟨9, 9⟩ 5 = ⟨1, 0⟩ ∧
      getPositionAtDistance zeroBracketTrail ⟨9, 9⟩ 5 ≠ (⟨2, 0⟩ : Vec2) := by
  have heval : getPositionAtDistance zeroBracketTrail ⟨9, 9⟩ 5 = ⟨1, 0⟩ := by
    norm_num [zeroBracketTrail, getPositionAtDistance, findBracket, lerpPoint,
      List.getLast]
  refine ⟨heval, ?_⟩
  rw [heval]
  intro hcontra
  have hx := congrArg Vec2.x hcontra
  norm_num at hx

end Solsnake

end
